import Mathlib

/-! zephyr-ble-app: the opcode dispatcher of `ble_opcodes.c`

A shallow embedding of `src/app/src/ble/ble_opcodes.c` and of the wire layouts
declared in `src/include/ble/ble_opcodes.h`.

* Bytes are natural numbers below 256, buffers are lists of bytes.
* The C function `ble_opcodes_received` has side effects only: they are
  recorded, oldest first, in the `trace` of a `World`, next to the one piece of
  mutable program state, the function-local `static op_data` of the COUNTER
  handler.
* Array accesses and `memcpy` are bounds checked; an access outside an object
  makes the embedded function return `none`.
* The target is a 32-bit little-endian Zephyr board: `uint32_t` and `int`
  are four bytes wide and four-byte aligned, and no struct of
  `ble_opcodes.h` carries a packing attribute.
-/

set_option autoImplicit false

namespace BleOpcodes

/-! ## Constants of `ble_opcodes.h` -/

def BLE_OPCODES_OP_POS : Nat := 0
def BLE_OPCODES_DATA_POS : Nat := 1

def BLE_OPCODES_OP_PING : Nat := 0x01
def BLE_OPCODES_OP_COUNTER : Nat := 0x02
def BLE_OPCODES_OP_DELAY : Nat := 0x03
def BLE_OPCODES_OP_TEMPERATURE : Nat := 0x04
def BLE_OPCODES_OP_TEMP_SENSOR_CONFIG : Nat := 0x05

def BLE_OPCODES_PING_TX_LEN : Nat := 1
def BLE_OPCODES_PING_RX_LEN : Nat := 1
def BLE_OPCODES_COUNTER_TX_LEN : Nat := 1
def BLE_OPCODES_COUNTER_RX_LEN : Nat := 5
def BLE_OPCODES_DELAY_TX_LEN : Nat := 1
def BLE_OPCODES_DELAY_RX_LEN : Nat := 1
def BLE_OPCODES_TEMPERATURE_TX_LEN : Nat := 1
def BLE_OPCODES_TEMPERATURE_RX_LEN : Nat := 9
def BLE_OPCODES_TEMP_SENSOR_CONFIG_TX_LEN : Nat := 28
def BLE_OPCODES_TEMP_SENSOR_CONFIG_RX_LEN : Nat := 5

/-- Kconfig values used by `ble_opcodes.c`; their definitions are not part of
the sources, so they are parameters of the embedding. -/
structure Config where
  /-- Size of the local `payload` array of `ble_opcodes_received`. -/
  CONFIG_BT_L2CAP_TX_MTU : Nat
  /-- Argument of `k_msleep` in the DELAY handler. -/
  CONFIG_BLE_OPCODES_OP_DELAY_TIME_MS : Int
  deriving DecidableEq, Repr

/-! ## Object representation of the response unions -/

/-- Two to the power 32, the modulus of `uint32_t` arithmetic. -/
def U32_MOD : Nat := 4294967296

/-- The `w` low-order bytes of `v`, least significant first. -/
def le_bytes : Nat → Nat → List Nat
  | 0, _ => []
  | w + 1, v => (v % 256) :: le_bytes w (v / 256)

/-- The number whose little-endian bytes are `bs`. -/
def le_value : List Nat → Nat
  | [] => 0
  | b :: bs => b + 256 * le_value bs

/-- The bit pattern of an `int32_t` (two's complement). -/
def i32_bits (i : Int) : Nat := (i % 4294967296).toNat

/-- The `int32_t` with a given 32-bit pattern. -/
def i32_of_bits (n : Nat) : Int :=
  if n % 4294967296 < 2147483648 then ((n % 4294967296 : Nat) : Int)
  else ((n % 4294967296 : Nat) : Int) - 4294967296

/-- The smallest multiple of `a` that is at least `off`. -/
def align_up (off a : Nat) : Nat := (off + a - 1) / a * a

/-- Object representation of a struct without packing attribute whose members
are scalars, given in declaration order as (size in bytes, bit pattern): every
member sits at the next offset that is a multiple of its alignment, which for
the scalar types of `ble_opcodes.h` is its size; the padding bytes in between
are zero, as in the image of a statically initialised object. `off` is the
offset reached so far. The three response structs end on a multiple of four,
so none has padding after its last member. -/
def struct_bytes : Nat → List (Nat × Nat) → List Nat
  | _, [] => []
  | off, (sz, v) :: ms =>
      List.replicate (align_up off sz - off) 0 ++ le_bytes sz v
        ++ struct_bytes (align_up off sz + sz) ms

/-- The members of a struct read back from an object representation: the
member sizes are given in declaration order, `off` is the offset reached so
far. -/
def struct_read (obj : List Nat) : Nat → List Nat → List Nat
  | _, [] => []
  | off, sz :: szs =>
      le_value ((obj.drop (align_up off sz)).take sz)
        :: struct_read obj (align_up off sz + sz) szs

/-- Storing `raw` through the `raw` member of a union whose object
representation was `old`: the leading bytes are replaced, the bytes of the
object beyond the `raw` array keep their value. -/
def union_store_raw (old raw : List Nat) : List Nat := raw ++ old.drop raw.length

/-- The `fields` member of `union ble_opcodes_counter_rx_data`. -/
structure ble_opcodes_counter_rx_data where
  /-- Member `uint8_t opcode`. -/
  opcode : Nat
  /-- Member `uint32_t count`. -/
  count : Nat
  deriving DecidableEq, Repr

/-- The `fields` member of `union ble_opcodes_temperature_rx_data`. -/
structure ble_opcodes_temperature_rx_data where
  /-- Member `uint8_t opcode`. -/
  opcode : Nat
  /-- Member `int32_t temp_whole_nb`. -/
  temp_whole_nb : Int
  /-- Member `int32_t temp_decimal_nb`. -/
  temp_decimal_nb : Int
  deriving DecidableEq, Repr

/-- The `fields` member of `union ble_opcodes_temp_sensor_config_rx_data`. -/
structure ble_opcodes_temp_sensor_config_rx_data where
  /-- Member `uint8_t opcode`. -/
  opcode : Nat
  /-- Member `int return_code`. -/
  return_code : Int
  deriving DecidableEq, Repr

namespace ble_opcodes_counter_rx_data

/-- Object representation of the union after its `fields` were filled. -/
def object (f : ble_opcodes_counter_rx_data) : List Nat :=
  struct_bytes 0 [(1, f.opcode), (4, f.count)]

/-- The member `uint8_t raw[BLE_OPCODES_COUNTER_RX_LEN]`: the leading bytes of
the object. -/
def raw (f : ble_opcodes_counter_rx_data) : List Nat :=
  f.object.take BLE_OPCODES_COUNTER_RX_LEN

/-- The `fields` read from an object representation. -/
def of_object (obj : List Nat) : ble_opcodes_counter_rx_data :=
  match struct_read obj 0 [1, 4] with
  | [o, c] => { opcode := o, count := c }
  | _ => { opcode := 0, count := 0 }

/-- The `fields` read after `bytes` were stored into `raw` of a union whose
object representation was `old`. -/
def of_raw (old bytes : List Nat) : ble_opcodes_counter_rx_data :=
  of_object (union_store_raw old bytes)

end ble_opcodes_counter_rx_data

namespace ble_opcodes_temperature_rx_data

/-- Object representation of the union after its `fields` were filled. -/
def object (f : ble_opcodes_temperature_rx_data) : List Nat :=
  struct_bytes 0 [(1, f.opcode), (4, i32_bits f.temp_whole_nb), (4, i32_bits f.temp_decimal_nb)]

/-- The member `uint8_t raw[BLE_OPCODES_TEMPERATURE_RX_LEN]`. -/
def raw (f : ble_opcodes_temperature_rx_data) : List Nat :=
  f.object.take BLE_OPCODES_TEMPERATURE_RX_LEN

/-- The `fields` read from an object representation. -/
def of_object (obj : List Nat) : ble_opcodes_temperature_rx_data :=
  match struct_read obj 0 [1, 4, 4] with
  | [o, w, d] => { opcode := o, temp_whole_nb := i32_of_bits w, temp_decimal_nb := i32_of_bits d }
  | _ => { opcode := 0, temp_whole_nb := 0, temp_decimal_nb := 0 }

/-- The `fields` read after `bytes` were stored into `raw` of a union whose
object representation was `old`. -/
def of_raw (old bytes : List Nat) : ble_opcodes_temperature_rx_data :=
  of_object (union_store_raw old bytes)

end ble_opcodes_temperature_rx_data

namespace ble_opcodes_temp_sensor_config_rx_data

/-- Object representation of the union after its `fields` were filled. -/
def object (f : ble_opcodes_temp_sensor_config_rx_data) : List Nat :=
  struct_bytes 0 [(1, f.opcode), (4, i32_bits f.return_code)]

/-- The member `uint8_t raw[BLE_OPCODES_TEMP_SENSOR_CONFIG_RX_LEN]`. -/
def raw (f : ble_opcodes_temp_sensor_config_rx_data) : List Nat :=
  f.object.take BLE_OPCODES_TEMP_SENSOR_CONFIG_RX_LEN

/-- The `fields` read from an object representation. -/
def of_object (obj : List Nat) : ble_opcodes_temp_sensor_config_rx_data :=
  match struct_read obj 0 [1, 4] with
  | [o, r] => { opcode := o, return_code := i32_of_bits r }
  | _ => { opcode := 0, return_code := 0 }

/-- The `fields` read after `bytes` were stored into `raw` of a union whose
object representation was `old`. -/
def of_raw (old bytes : List Nat) : ble_opcodes_temp_sensor_config_rx_data :=
  of_object (union_store_raw old bytes)

end ble_opcodes_temp_sensor_config_rx_data

/-! ## Effects and program state -/

/-- The handlers a descriptor can point to (the `handler` function pointer). -/
inductive Handler
  | ping
  | counter
  | delay
  deriving DecidableEq, Repr

/-- What `ble_opcodes.c` does to the outside world. -/
inductive Effect
  /-- The call `LOG_HEXDUMP_INF(data, len, "Received payload")`. -/
  | log_hexdump_inf (bytes : List Nat)
  /-- The call `LOG_INF("%s()", __func__)` of a handler. -/
  | log_inf (fn : Handler)
  /-- The call `LOG_ERR("Error %d from OpCode 0x%02X", ret, opcode)`. -/
  | log_err_handler (ret : Int) (opcode : Nat)
  /-- The call `LOG_ERR("Invalid OpCode received 0x%02X", opcode)`. -/
  | log_err_invalid (opcode : Nat)
  /-- The call `k_msleep(ms)`. -/
  | k_msleep (ms : Int)
  /-- The call `bt_nus_send(NULL, data, len)`, with the `len` bytes handed over. -/
  | bt_nus_send (bytes : List Nat)
  deriving DecidableEq, Repr

/-- The mutable state of the module and the effects performed so far. -/
structure World where
  /-- The `static union ble_opcodes_counter_rx_data op_data` of the COUNTER handler. -/
  op_data : ble_opcodes_counter_rx_data
  /-- Effects performed so far, oldest first. -/
  trace : List Effect
  deriving DecidableEq, Repr

/-- The state at process start: the static initialiser of `op_data`, nothing
done yet. -/
def World.initial : World :=
  { op_data := { opcode := BLE_OPCODES_OP_COUNTER, count := 0 }, trace := [] }

/-- Record one effect. -/
def World.emit (w : World) (e : Effect) : World :=
  { w with trace := w.trace ++ [e] }

/-- The buffers handed to the transport, in order. -/
def sends : List Effect → List (List Nat)
  | [] => []
  | Effect.bt_nus_send b :: es => b :: sends es
  | _ :: es => sends es

/-- The sleeps performed, in order. -/
def sleeps : List Effect → List Int
  | [] => []
  | Effect.k_msleep ms :: es => ms :: sleeps es
  | _ :: es => sleeps es

/-- The trace without its log entries: sleeps and sends only. -/
def actions : List Effect → List Effect
  | [] => []
  | Effect.k_msleep ms :: es => Effect.k_msleep ms :: actions es
  | Effect.bt_nus_send b :: es => Effect.bt_nus_send b :: actions es
  | _ :: es => actions es

/-! ## `ble_opcodes.c` -/

/-- The descriptor type `struct ble_opcodes_op_desc`. -/
structure ble_opcodes_op_desc where
  opcode : Nat
  tx_length : Nat
  handler : Handler
  deriving DecidableEq, Repr

/-- The descriptor table `ble_opcodes_op_table`. -/
def ble_opcodes_op_table : List ble_opcodes_op_desc :=
  [ { opcode := BLE_OPCODES_OP_PING, tx_length := BLE_OPCODES_PING_TX_LEN,
      handler := Handler.ping },
    { opcode := BLE_OPCODES_OP_COUNTER, tx_length := BLE_OPCODES_COUNTER_TX_LEN,
      handler := Handler.counter },
    { opcode := BLE_OPCODES_OP_DELAY, tx_length := BLE_OPCODES_DELAY_TX_LEN,
      handler := Handler.delay } ]

/-- The call `memcpy(dst, src, n)` on arrays `dst` and `src`: defined when `n` bytes lie
inside both. -/
def memcpy (dst src : List Nat) (n : Nat) : Option (List Nat) :=
  if n ≤ dst.length ∧ n ≤ src.length then some (src.take n ++ dst.drop n) else none

/-- The call `bt_nus_send(NULL, data, len)` of the Zephyr NUS service, which is
outside the repository: it reads `len` bytes of `data` and hands them to the
transport; `ret` is the value the service returns for this call. -/
def bt_nus_send (ret : Int) (data : List Nat) (len : Nat) (w : World) : Option (Int × World) :=
  if len ≤ data.length then some (ret, w.emit (Effect.bt_nus_send (data.take len))) else none

/-- The handler `ble_opcodes_op_ping_handler`: the first
`BLE_OPCODES_PING_RX_LEN` bytes of the payload are sent back. -/
def ble_opcodes_op_ping_handler (ret : Int) (data : List Nat) (w : World) :
    Option (Int × World) :=
  bt_nus_send ret data BLE_OPCODES_PING_RX_LEN (w.emit (Effect.log_inf Handler.ping))

/-- The handler `ble_opcodes_op_counter_handler`: `op_data.fields.count++` on a `uint32_t`,
then the `raw` member of `op_data` is sent. -/
def ble_opcodes_op_counter_handler (ret : Int) (_data : List Nat) (w : World) :
    Option (Int × World) :=
  let w1 := w.emit (Effect.log_inf Handler.counter)
  let w2 : World :=
    { w1 with op_data := { w1.op_data with count := (w1.op_data.count + 1) % U32_MOD } }
  bt_nus_send ret w2.op_data.raw BLE_OPCODES_COUNTER_RX_LEN w2

/-- The handler `ble_opcodes_op_delay_handler`: sleep, then send back the first
`BLE_OPCODES_DELAY_RX_LEN` bytes of the payload. -/
def ble_opcodes_op_delay_handler (cfg : Config) (ret : Int) (data : List Nat) (w : World) :
    Option (Int × World) :=
  let w1 := w.emit (Effect.log_inf Handler.delay)
  let w2 := w1.emit (Effect.k_msleep cfg.CONFIG_BLE_OPCODES_OP_DELAY_TIME_MS)
  bt_nus_send ret data BLE_OPCODES_DELAY_RX_LEN w2

/-- The indirect call `desc->handler(conn, payload)`. -/
def Handler.call (cfg : Config) (ret : Int) (data : List Nat) (w : World) :
    Handler → Option (Int × World)
  | Handler.ping => ble_opcodes_op_ping_handler ret data w
  | Handler.counter => ble_opcodes_op_counter_handler ret data w
  | Handler.delay => ble_opcodes_op_delay_handler cfg ret data w

/-- The `for` loop of `ble_opcodes_received` over the remaining descriptors,
followed by the statement after the loop. -/
def ble_opcodes_received_loop (cfg : Config) (ret : Int) (payload : List Nat) (len : Nat) :
    List ble_opcodes_op_desc → World → Option World
  | [], w => do
      let op ← payload[BLE_OPCODES_OP_POS]?
      pure (w.emit (Effect.log_err_invalid op))
  | desc :: rest, w => do
      let op ← payload[BLE_OPCODES_OP_POS]?
      if op = desc.opcode ∧ len = desc.tx_length then
        let (r, w1) ← desc.handler.call cfg ret payload w
        if r ≠ 0 then
          let op1 ← payload[BLE_OPCODES_OP_POS]?
          pure (w1.emit (Effect.log_err_handler r op1))
        else
          pure w1
      else
        ble_opcodes_received_loop cfg ret payload len rest w

/-- The callback `ble_opcodes_received(conn, data, len, ctx)`, where `data` holds the `len`
received bytes (`len` is a `uint16_t`, so at most 65535 of them) and `ret` is
the value the transport returns if this call sends. -/
def ble_opcodes_received (cfg : Config) (ret : Int) (data : List Nat) (w : World) :
    Option World := do
  let len := data.length
  let zeroed := List.replicate cfg.CONFIG_BT_L2CAP_TX_MTU 0
  let payload ← memcpy zeroed data (min (zeroed.length - 1) len)
  let w1 := w.emit (Effect.log_hexdump_inf data)
  ble_opcodes_received_loop cfg ret payload len ble_opcodes_op_table w1

/-- A sequence of received frames, each with the value the transport returns
if its dispatch sends, handled one after the other. -/
def receive_all (cfg : Config) : List (Int × List Nat) → World → Option World
  | [], w => some w
  | (ret, data) :: rest, w =>
      match ble_opcodes_received cfg ret data w with
      | some w1 => receive_all cfg rest w1
      | none => none

/-! ## The wire layout of the protocol table -/

/-- Response frame of COUNTER as the protocol table gives it: the opcode byte,
then the counter as `u32` little-endian. -/
def spec_counter_response (k : Nat) : List Nat :=
  BLE_OPCODES_OP_COUNTER :: le_bytes 4 (k % U32_MOD)

/-- The counter value a client reads from a COUNTER response by the protocol
table: the `u32` little-endian number in the four bytes after the opcode byte,
which starts at `BLE_OPCODES_DATA_POS`. -/
def spec_counter_value (response : List Nat) : Nat :=
  le_value ((response.drop BLE_OPCODES_DATA_POS).take 4)

/-! ## Closed forms used in the proofs -/

/-- The opcode byte `payload[BLE_OPCODES_OP_POS]` that `ble_opcodes_received`
reads after the copy: the first received byte when one was copied, the zero of
the initialiser otherwise. -/
def opcode_read (cfg : Config) (data : List Nat) : Nat :=
  match data with
  | [] => 0
  | b :: _ => if 2 ≤ cfg.CONFIG_BT_L2CAP_TX_MTU then b else 0

/-- The local `payload` array after the `memcpy`. -/
def payload_of (cfg : Config) (data : List Nat) : List Nat :=
  data.take (min (cfg.CONFIG_BT_L2CAP_TX_MTU - 1) data.length)
    ++ List.replicate
        (cfg.CONFIG_BT_L2CAP_TX_MTU - min (cfg.CONFIG_BT_L2CAP_TX_MTU - 1) data.length) 0

/-- The error log that follows a handler call returning `ret`. -/
def handler_error_log (ret : Int) (opcode : Nat) : List Effect :=
  if ret ≠ 0 then [Effect.log_err_handler ret opcode] else []

/-- What one dispatch does, in closed form: the new value of `op_data` and the
effects appended to the trace. Used to reason about `ble_opcodes_received`,
with which it agrees by `received_closed_form`. -/
def dispatch_result (cfg : Config) (ret : Int) (data : List Nat)
    (od : ble_opcodes_counter_rx_data) : ble_opcodes_counter_rx_data × List Effect :=
  if data = [0x01] then
    (od, [Effect.log_hexdump_inf [0x01], Effect.log_inf Handler.ping,
          Effect.bt_nus_send [0x01]] ++ handler_error_log ret 0x01)
  else if data = [0x02] then
    ({ opcode := od.opcode, count := (od.count + 1) % U32_MOD },
      [Effect.log_hexdump_inf [0x02], Effect.log_inf Handler.counter,
        Effect.bt_nus_send
          (ble_opcodes_counter_rx_data.raw
            { opcode := od.opcode, count := (od.count + 1) % U32_MOD })]
        ++ handler_error_log ret 0x02)
  else if data = [0x03] then
    (od, [Effect.log_hexdump_inf [0x03], Effect.log_inf Handler.delay,
          Effect.k_msleep cfg.CONFIG_BLE_OPCODES_OP_DELAY_TIME_MS,
          Effect.bt_nus_send [0x03]] ++ handler_error_log ret 0x03)
  else
    (od, [Effect.log_hexdump_inf data, Effect.log_err_invalid (opcode_read cfg data)])

/-! ## Basic facts about traces -/

theorem sends_append (a b : List Effect) : sends (a ++ b) = sends a ++ sends b := by
  induction a with
  | nil => rfl
  | cons e es ih => cases e <;> simp [sends, ih]

theorem sleeps_append (a b : List Effect) : sleeps (a ++ b) = sleeps a ++ sleeps b := by
  induction a with
  | nil => rfl
  | cons e es ih => cases e <;> simp [sleeps, ih]

theorem actions_append (a b : List Effect) : actions (a ++ b) = actions a ++ actions b := by
  induction a with
  | nil => rfl
  | cons e es ih => cases e <;> simp [actions, ih]

/-! ## The payload copy -/

theorem memcpy_payload (cfg : Config) (data : List Nat) :
    memcpy (List.replicate cfg.CONFIG_BT_L2CAP_TX_MTU 0) data
        (min ((List.replicate cfg.CONFIG_BT_L2CAP_TX_MTU 0).length - 1) data.length)
      = some (payload_of cfg data) := by
  unfold memcpy payload_of
  rw [if_pos]
  · simp
  · simp only [List.length_replicate]
    omega

theorem payload_of_length (cfg : Config) (data : List Nat) :
    (payload_of cfg data).length = cfg.CONFIG_BT_L2CAP_TX_MTU := by
  unfold payload_of
  simp only [List.length_append, List.length_take, List.length_replicate]
  omega

theorem payload_of_opcode (cfg : Config) (data : List Nat)
    (hmtu : 1 ≤ cfg.CONFIG_BT_L2CAP_TX_MTU) :
    (payload_of cfg data)[BLE_OPCODES_OP_POS]? = some (opcode_read cfg data) := by
  unfold payload_of opcode_read BLE_OPCODES_OP_POS
  cases data with
  | nil =>
      obtain ⟨m, hm⟩ : ∃ m, cfg.CONFIG_BT_L2CAP_TX_MTU = m + 1 := ⟨_, (Nat.sub_add_cancel hmtu).symm⟩
      simp [hm, List.replicate_succ]
  | cons b rest =>
      by_cases h2 : 2 ≤ cfg.CONFIG_BT_L2CAP_TX_MTU
      · have hmin : min (cfg.CONFIG_BT_L2CAP_TX_MTU - 1) (b :: rest).length
            = min (cfg.CONFIG_BT_L2CAP_TX_MTU - 2) rest.length + 1 := by
          simp only [List.length_cons]; omega
        rw [hmin, List.take_succ_cons]
        simp [h2]
      · have hm : cfg.CONFIG_BT_L2CAP_TX_MTU = 1 := by omega
        simp [hm]

theorem payload_of_take_one (cfg : Config) (data : List Nat)
    (hmtu : 1 ≤ cfg.CONFIG_BT_L2CAP_TX_MTU) :
    (payload_of cfg data).take 1 = [opcode_read cfg data] := by
  have h := payload_of_opcode cfg data hmtu
  unfold BLE_OPCODES_OP_POS at h
  cases hp : payload_of cfg data with
  | nil => rw [hp] at h; simp at h
  | cons x xs => rw [hp] at h; simp at h; simp [h]

/-! ## The dispatcher in closed form -/

theorem received_unfold (cfg : Config) (ret : Int) (data : List Nat) (w : World) :
    ble_opcodes_received cfg ret data w
      = ble_opcodes_received_loop cfg ret (payload_of cfg data) data.length
          ble_opcodes_op_table (w.emit (Effect.log_hexdump_inf data)) := by
  unfold ble_opcodes_received
  simp only [memcpy_payload]
  rfl

theorem loop_no_match (cfg : Config) (ret : Int) (payload : List Nat) (len op : Nat)
    (hop : payload[BLE_OPCODES_OP_POS]? = some op) :
    ∀ (table : List ble_opcodes_op_desc) (w : World),
      (∀ d ∈ table, ¬ (op = d.opcode ∧ len = d.tx_length)) →
      ble_opcodes_received_loop cfg ret payload len table w
        = some (w.emit (Effect.log_err_invalid op)) := by
  intro table
  induction table with
  | nil =>
      intro w _
      simp [ble_opcodes_received_loop, hop]
  | cons d rest ih =>
      intro w h
      have hd := h d (List.mem_cons_self d rest)
      have hrest : ∀ e ∈ rest, ¬ (op = e.opcode ∧ len = e.tx_length) :=
        fun e he => h e (List.mem_cons_of_mem d he)
      simp only [ble_opcodes_received_loop, hop, Option.bind_eq_bind, Option.some_bind]
      rw [if_neg hd]
      exact ih w hrest

theorem loop_match_head (cfg : Config) (ret : Int) (payload : List Nat) (len op : Nat)
    (hop : payload[BLE_OPCODES_OP_POS]? = some op) (d : ble_opcodes_op_desc)
    (rest : List ble_opcodes_op_desc) (w w1 : World) (r : Int)
    (hd : op = d.opcode ∧ len = d.tx_length)
    (hcall : d.handler.call cfg ret payload w = some (r, w1)) :
    ble_opcodes_received_loop cfg ret payload len (d :: rest) w
      = some { w1 with trace := w1.trace ++ handler_error_log r op } := by
  simp only [ble_opcodes_received_loop, hop, Option.bind_eq_bind, Option.some_bind]
  rw [if_pos hd, hcall]
  by_cases hr : r = 0
  · simp [hr, handler_error_log]
  · simp [hr, handler_error_log, World.emit]

theorem loop_skip_head (cfg : Config) (ret : Int) (payload : List Nat) (len op : Nat)
    (hop : payload[BLE_OPCODES_OP_POS]? = some op) (d : ble_opcodes_op_desc)
    (rest : List ble_opcodes_op_desc) (w : World)
    (hd : ¬ (op = d.opcode ∧ len = d.tx_length)) :
    ble_opcodes_received_loop cfg ret payload len (d :: rest) w
      = ble_opcodes_received_loop cfg ret payload len rest w := by
  simp only [ble_opcodes_received_loop, hop, Option.bind_eq_bind, Option.some_bind]
  rw [if_neg hd]

/-- A frame that matches no descriptor is logged and dropped. -/
theorem received_invalid (cfg : Config) (ret : Int) (data : List Nat) (w : World)
    (hmtu : 1 ≤ cfg.CONFIG_BT_L2CAP_TX_MTU)
    (h : ∀ d ∈ ble_opcodes_op_table,
      ¬ (opcode_read cfg data = d.opcode ∧ data.length = d.tx_length)) :
    ble_opcodes_received cfg ret data w
      = some { op_data := w.op_data,
               trace := w.trace ++ [Effect.log_hexdump_inf data,
                                    Effect.log_err_invalid (opcode_read cfg data)] } := by
  rw [received_unfold,
    loop_no_match cfg ret _ _ _ (payload_of_opcode cfg data hmtu) ble_opcodes_op_table _ h]
  simp [World.emit]

/-- The PING frame. -/
theorem received_ping (cfg : Config) (ret : Int) (w : World)
    (hmtu : 2 ≤ cfg.CONFIG_BT_L2CAP_TX_MTU) :
    ble_opcodes_received cfg ret [0x01] w
      = some { op_data := w.op_data,
               trace := w.trace ++ [Effect.log_hexdump_inf [0x01], Effect.log_inf Handler.ping,
                                    Effect.bt_nus_send [0x01]] ++ handler_error_log ret 0x01 } := by
  have h1 : 1 ≤ cfg.CONFIG_BT_L2CAP_TX_MTU := by omega
  have hop : opcode_read cfg [0x01] = 0x01 := by simp [opcode_read, hmtu]
  have hp := payload_of_opcode cfg [0x01] h1
  rw [hop] at hp
  rw [received_unfold]
  unfold ble_opcodes_op_table
  rw [loop_match_head cfg ret _ _ _ hp _ _ _
        (((w.emit (Effect.log_hexdump_inf [0x01])).emit (Effect.log_inf Handler.ping)).emit
          (Effect.bt_nus_send [0x01])) ret (by decide)]
  · simp [World.emit]
  · have ht := payload_of_take_one cfg [0x01] h1
    rw [hop] at ht
    simp [Handler.call, ble_opcodes_op_ping_handler, bt_nus_send, BLE_OPCODES_PING_RX_LEN,
      payload_of_length, h1, ht]

/-! ## The bytes of the response unions -/

theorem counter_object_eq (f : ble_opcodes_counter_rx_data) :
    f.object = [f.opcode % 256, 0, 0, 0, f.count % 256, f.count / 256 % 256,
      f.count / 256 / 256 % 256, f.count / 256 / 256 / 256 % 256] := by
  simp [ble_opcodes_counter_rx_data.object, struct_bytes, align_up, le_bytes, List.replicate]

theorem counter_raw_eq (f : ble_opcodes_counter_rx_data) :
    f.raw = [f.opcode % 256, 0, 0, 0, f.count % 256] := by
  simp [ble_opcodes_counter_rx_data.raw, counter_object_eq, BLE_OPCODES_COUNTER_RX_LEN]

theorem temperature_object_eq (f : ble_opcodes_temperature_rx_data) :
    f.object = [f.opcode % 256, 0, 0, 0,
      i32_bits f.temp_whole_nb % 256, i32_bits f.temp_whole_nb / 256 % 256,
      i32_bits f.temp_whole_nb / 256 / 256 % 256,
      i32_bits f.temp_whole_nb / 256 / 256 / 256 % 256,
      i32_bits f.temp_decimal_nb % 256, i32_bits f.temp_decimal_nb / 256 % 256,
      i32_bits f.temp_decimal_nb / 256 / 256 % 256,
      i32_bits f.temp_decimal_nb / 256 / 256 / 256 % 256] := by
  simp [ble_opcodes_temperature_rx_data.object, struct_bytes, align_up, le_bytes,
    List.replicate]

theorem temperature_raw_eq (f : ble_opcodes_temperature_rx_data) :
    f.raw = [f.opcode % 256, 0, 0, 0,
      i32_bits f.temp_whole_nb % 256, i32_bits f.temp_whole_nb / 256 % 256,
      i32_bits f.temp_whole_nb / 256 / 256 % 256,
      i32_bits f.temp_whole_nb / 256 / 256 / 256 % 256,
      i32_bits f.temp_decimal_nb % 256] := by
  simp [ble_opcodes_temperature_rx_data.raw, temperature_object_eq,
    BLE_OPCODES_TEMPERATURE_RX_LEN]

theorem temp_sensor_config_raw_eq (f : ble_opcodes_temp_sensor_config_rx_data) :
    f.raw = [f.opcode % 256, 0, 0, 0, i32_bits f.return_code % 256] := by
  simp [ble_opcodes_temp_sensor_config_rx_data.raw,
    ble_opcodes_temp_sensor_config_rx_data.object, struct_bytes, align_up, le_bytes,
    List.replicate, BLE_OPCODES_TEMP_SENSOR_CONFIG_RX_LEN]

/-- The COUNTER frame. -/
theorem received_counter (cfg : Config) (ret : Int) (w : World)
    (hmtu : 2 ≤ cfg.CONFIG_BT_L2CAP_TX_MTU) :
    ble_opcodes_received cfg ret [0x02] w
      = some { op_data := { opcode := w.op_data.opcode,
                            count := (w.op_data.count + 1) % U32_MOD },
               trace := w.trace ++ [Effect.log_hexdump_inf [0x02],
                          Effect.log_inf Handler.counter,
                          Effect.bt_nus_send
                            (ble_opcodes_counter_rx_data.raw
                              { opcode := w.op_data.opcode,
                                count := (w.op_data.count + 1) % U32_MOD })]
                        ++ handler_error_log ret 0x02 } := by
  have h1 : 1 ≤ cfg.CONFIG_BT_L2CAP_TX_MTU := by omega
  have hop : opcode_read cfg [0x02] = 0x02 := by simp [opcode_read, hmtu]
  have hp := payload_of_opcode cfg [0x02] h1
  rw [hop] at hp
  rw [received_unfold]
  unfold ble_opcodes_op_table
  rw [loop_skip_head cfg ret _ _ _ hp _ _ _ (by decide)]
  rw [loop_match_head cfg ret _ _ _ hp _ _ _
        { op_data := { opcode := w.op_data.opcode,
                       count := (w.op_data.count + 1) % U32_MOD },
          trace := w.trace ++ [Effect.log_hexdump_inf [0x02],
                          Effect.log_inf Handler.counter,
                          Effect.bt_nus_send
                            (ble_opcodes_counter_rx_data.raw
                              { opcode := w.op_data.opcode,
                                count := (w.op_data.count + 1) % U32_MOD })] }
        ret (by decide)]
  · simp [Handler.call, ble_opcodes_op_counter_handler, bt_nus_send, World.emit,
      counter_raw_eq, BLE_OPCODES_COUNTER_RX_LEN]

/-- The DELAY frame. -/
theorem received_delay (cfg : Config) (ret : Int) (w : World)
    (hmtu : 2 ≤ cfg.CONFIG_BT_L2CAP_TX_MTU) :
    ble_opcodes_received cfg ret [0x03] w
      = some { op_data := w.op_data,
               trace := w.trace ++ [Effect.log_hexdump_inf [0x03], Effect.log_inf Handler.delay,
                          Effect.k_msleep cfg.CONFIG_BLE_OPCODES_OP_DELAY_TIME_MS,
                          Effect.bt_nus_send [0x03]] ++ handler_error_log ret 0x03 } := by
  have h1 : 1 ≤ cfg.CONFIG_BT_L2CAP_TX_MTU := by omega
  have hop : opcode_read cfg [0x03] = 0x03 := by simp [opcode_read, hmtu]
  have hp := payload_of_opcode cfg [0x03] h1
  rw [hop] at hp
  rw [received_unfold]
  unfold ble_opcodes_op_table
  rw [loop_skip_head cfg ret _ _ _ hp _ _ _ (by decide)]
  rw [loop_skip_head cfg ret _ _ _ hp _ _ _ (by decide)]
  rw [loop_match_head cfg ret _ _ _ hp _ _ _
        { op_data := w.op_data,
          trace := w.trace ++ [Effect.log_hexdump_inf [0x03], Effect.log_inf Handler.delay,
                          Effect.k_msleep cfg.CONFIG_BLE_OPCODES_OP_DELAY_TIME_MS,
                          Effect.bt_nus_send [0x03]] }
        ret (by decide)]
  · have ht := payload_of_take_one cfg [0x03] h1
    rw [hop] at ht
    simp [Handler.call, ble_opcodes_op_delay_handler, bt_nus_send, BLE_OPCODES_DELAY_RX_LEN,
      payload_of_length, h1, ht, World.emit]

/-! ## Which frames match a descriptor -/

theorem table_tx_length (d : ble_opcodes_op_desc) (hd : d ∈ ble_opcodes_op_table) :
    d.tx_length = 1 := by
  simp only [ble_opcodes_op_table, List.mem_cons, List.mem_singleton, List.not_mem_nil,
    or_false] at hd
  rcases hd with h | h | h <;> rw [h] <;> rfl

theorem table_opcode (d : ble_opcodes_op_desc) (hd : d ∈ ble_opcodes_op_table) :
    d.opcode = 0x01 ∨ d.opcode = 0x02 ∨ d.opcode = 0x03 := by
  simp only [ble_opcodes_op_table, List.mem_cons, List.mem_singleton, List.not_mem_nil,
    or_false] at hd
  rcases hd with h | h | h <;> rw [h] <;> simp [BLE_OPCODES_OP_PING, BLE_OPCODES_OP_COUNTER,
    BLE_OPCODES_OP_DELAY]

theorem opcode_read_cases (cfg : Config) (b : Nat) (rest : List Nat) :
    opcode_read cfg (b :: rest) = b ∨ opcode_read cfg (b :: rest) = 0 := by
  unfold opcode_read
  by_cases h : 2 ≤ cfg.CONFIG_BT_L2CAP_TX_MTU <;> simp [h]

theorem no_match_of_length (cfg : Config) (data : List Nat) (hlen : data.length ≠ 1) :
    ∀ d ∈ ble_opcodes_op_table,
      ¬ (opcode_read cfg data = d.opcode ∧ data.length = d.tx_length) := by
  intro d hd h
  rw [table_tx_length d hd] at h
  exact hlen h.2

theorem no_match_of_opcode (cfg : Config) (op : Nat) (rest : List Nat)
    (hreg : ∀ d ∈ ble_opcodes_op_table, d.opcode ≠ op) :
    ∀ d ∈ ble_opcodes_op_table,
      ¬ (opcode_read cfg (op :: rest) = d.opcode ∧ (op :: rest).length = d.tx_length) := by
  intro d hd h
  rcases opcode_read_cases cfg op rest with h1 | h1
  · exact hreg d hd (by rw [← h.1, h1])
  · have h0 : d.opcode = 0 := by rw [← h.1, h1]
    rcases table_opcode d hd with h2 | h2 | h2 <;> omega

theorem match_cases (cfg : Config) (data : List Nat) :
    data = [0x01] ∨ data = [0x02] ∨ data = [0x03] ∨
      ∀ d ∈ ble_opcodes_op_table,
        ¬ (opcode_read cfg data = d.opcode ∧ data.length = d.tx_length) := by
  match data with
  | [] => exact Or.inr (Or.inr (Or.inr (no_match_of_length cfg [] (by simp))))
  | b :: c :: rest =>
      exact Or.inr (Or.inr (Or.inr (no_match_of_length cfg (b :: c :: rest) (by simp))))
  | [b] =>
      by_cases h1 : b = 0x01
      · exact Or.inl (by rw [h1])
      by_cases h2 : b = 0x02
      · exact Or.inr (Or.inl (by rw [h2]))
      by_cases h3 : b = 0x03
      · exact Or.inr (Or.inr (Or.inl (by rw [h3])))
      refine Or.inr (Or.inr (Or.inr ?_))
      apply no_match_of_opcode
      intro d hd
      rcases table_opcode d hd with h | h | h <;> omega

theorem actions_handler_error_log (r : Int) (o : Nat) : actions (handler_error_log r o) = [] := by
  unfold handler_error_log
  by_cases h : r = 0 <;> simp [h, actions]

theorem sends_handler_error_log (r : Int) (o : Nat) : sends (handler_error_log r o) = [] := by
  unfold handler_error_log
  by_cases h : r = 0 <;> simp [h, sends]

theorem sleeps_handler_error_log (r : Int) (o : Nat) : sleeps (handler_error_log r o) = [] := by
  unfold handler_error_log
  by_cases h : r = 0 <;> simp [h, sleeps]

/-! ## Sequences of frames -/

theorem receive_all_ping (cfg : Config) (hmtu : 2 ≤ cfg.CONFIG_BT_L2CAP_TX_MTU) :
    ∀ (rets : List Int) (w : World),
      ∃ wn, receive_all cfg (rets.map (fun r => (r, [0x01]))) w = some wn ∧
        wn.op_data = w.op_data ∧
        actions wn.trace
          = actions w.trace ++ List.replicate rets.length (Effect.bt_nus_send [0x01]) := by
  intro rets
  induction rets with
  | nil => intro w; exact ⟨w, rfl, rfl, by simp⟩
  | cons r rs ih =>
      intro w
      simp only [List.map_cons, receive_all, received_ping cfg r w hmtu]
      obtain ⟨wn, h1, h2, h3⟩ := ih
        { op_data := w.op_data,
          trace := w.trace ++ [Effect.log_hexdump_inf [0x01], Effect.log_inf Handler.ping,
                      Effect.bt_nus_send [0x01]] ++ handler_error_log r 0x01 }
      refine ⟨wn, h1, h2, ?_⟩
      rw [h3]
      simp [actions_append, actions_handler_error_log, actions, List.replicate_succ]

theorem received_closed_form (cfg : Config) (ret : Int) (data : List Nat) (w : World)
    (hmtu : 2 ≤ cfg.CONFIG_BT_L2CAP_TX_MTU) :
    ble_opcodes_received cfg ret data w
      = some { op_data := (dispatch_result cfg ret data w.op_data).1,
               trace := w.trace ++ (dispatch_result cfg ret data w.op_data).2 } := by
  by_cases h1 : data = [0x01]
  · subst h1
    rw [received_ping cfg ret w hmtu]
    simp [dispatch_result]
  by_cases h2 : data = [0x02]
  · subst h2
    rw [received_counter cfg ret w hmtu]
    simp [dispatch_result]
  by_cases h3 : data = [0x03]
  · subst h3
    rw [received_delay cfg ret w hmtu]
    simp [dispatch_result]
  rcases match_cases cfg data with h | h | h | h
  · exact absurd h h1
  · exact absurd h h2
  · exact absurd h h3
  · rw [received_invalid cfg ret data w (by omega) h]
    simp [dispatch_result, h1, h2, h3]

theorem receive_all_counter (cfg : Config) (hmtu : 2 ≤ cfg.CONFIG_BT_L2CAP_TX_MTU) :
    ∀ (rets : List Int) (w : World), w.op_data.count < U32_MOD →
      ∃ wn, receive_all cfg (rets.map (fun r => (r, [0x02]))) w = some wn ∧
        wn.op_data = { opcode := w.op_data.opcode,
                       count := (w.op_data.count + rets.length) % U32_MOD } ∧
        sends wn.trace
          = sends w.trace ++ (List.range rets.length).map (fun i =>
              ble_opcodes_counter_rx_data.raw
                { opcode := w.op_data.opcode,
                  count := (w.op_data.count + (i + 1)) % U32_MOD }) := by
  intro rets
  induction rets with
  | nil =>
      intro w hw
      refine ⟨w, rfl, ?_, by simp⟩
      simp [Nat.mod_eq_of_lt hw]
  | cons r rs ih =>
      intro w hw
      simp only [List.map_cons, receive_all, received_counter cfg r w hmtu]
      obtain ⟨wn, h1, h2, h3⟩ := ih
        { op_data := { opcode := w.op_data.opcode,
                       count := (w.op_data.count + 1) % U32_MOD },
          trace := w.trace ++ [Effect.log_hexdump_inf [0x02],
                          Effect.log_inf Handler.counter,
                          Effect.bt_nus_send
                            (ble_opcodes_counter_rx_data.raw
                              { opcode := w.op_data.opcode,
                                count := (w.op_data.count + 1) % U32_MOD })]
                        ++ handler_error_log r 0x02 }
        (Nat.mod_lt _ (by decide))
      refine ⟨wn, h1, ?_, ?_⟩
      · rw [h2]
        simp only [List.length_cons, U32_MOD, ble_opcodes_counter_rx_data.mk.injEq, true_and]
        omega
      · rw [h3]
        dsimp only
        rw [List.length_cons, List.range_succ_eq_map]
        simp only [sends_append, sends_handler_error_log, sends, List.append_nil,
          List.map_cons, List.map_map, List.append_assoc, List.singleton_append,
          List.cons_append, List.nil_append, Nat.zero_add]
        congr 2
        apply List.map_congr_left
        intro i _
        simp only [Function.comp, U32_MOD]
        congr 2
        omega

/-- The buffer the COUNTER handler sends for a counter value that is not 0
never has the layout of the protocol table. -/
theorem counter_raw_ne_spec (k : Nat) (hk : k % U32_MOD ≠ 0) :
    (ble_opcodes_counter_rx_data.mk BLE_OPCODES_OP_COUNTER (k % U32_MOD)).raw
      ≠ spec_counter_response k := by
  simp only [counter_raw_eq, spec_counter_response, le_bytes, BLE_OPCODES_OP_COUNTER, U32_MOD,
    ne_eq, List.cons.injEq, and_true, true_and, not_and] at hk ⊢
  omega

/-- The `fields` of the COUNTER union survive a trip through the whole
eight-byte object. -/
theorem counter_of_object_object (f : ble_opcodes_counter_rx_data)
    (ho : f.opcode < 256) (hc : f.count < U32_MOD) :
    ble_opcodes_counter_rx_data.of_object f.object = f := by
  cases f with
  | mk o c =>
    simp only [U32_MOD] at ho hc
    simp only [counter_object_eq, ble_opcodes_counter_rx_data.of_object, struct_read, align_up,
      le_value]
    simp only [ble_opcodes_counter_rx_data.mk.injEq]
    constructor
    · simp; omega
    · simp; omega

/-- Reading a response laid out as in the protocol table gives back the
counter value. -/
theorem spec_counter_value_response (k : Nat) :
    spec_counter_value (spec_counter_response k) = k % U32_MOD := by
  simp only [spec_counter_value, spec_counter_response, le_bytes, le_value,
    BLE_OPCODES_DATA_POS, U32_MOD, List.drop_succ_cons, List.drop_zero, List.take_succ_cons,
    List.take_zero]
  omega

/-! ## The claims -/

/-- C2: a frame whose first byte is the opcode of a registered descriptor but
whose length differs from that descriptor's request length reaches no handler:
the dispatch returns, the counter is unchanged, and apart from the hexdump the
only effect is the invalid-opcode error log for that opcode byte, so nothing is
sent and nothing sleeps. -/
theorem wrong_length_frame_is_dropped (cfg : Config) (ret : Int) (data : List Nat) (w : World)
    (d : ble_opcodes_op_desc)
    (hmtu : 2 ≤ cfg.CONFIG_BT_L2CAP_TX_MTU)
    (hd : d ∈ ble_opcodes_op_table)
    (hop : data.head? = some d.opcode)
    (hlen : data.length ≠ d.tx_length) :
    ∃ w1, ble_opcodes_received cfg ret data w = some w1 ∧
      w1.op_data = w.op_data ∧
      w1.trace = w.trace ++ [Effect.log_hexdump_inf data, Effect.log_err_invalid d.opcode] ∧
      sends w1.trace = sends w.trace ∧
      sleeps w1.trace = sleeps w.trace := by
  rw [table_tx_length d hd] at hlen
  have hread : opcode_read cfg data = d.opcode := by
    cases data with
    | nil => simp at hop
    | cons b rest =>
        simp only [List.head?_cons, Option.some.injEq] at hop
        simp [opcode_read, hmtu, hop]
  refine ⟨_, received_invalid cfg ret data w (by omega) (no_match_of_length cfg data hlen),
    rfl, ?_, ?_, ?_⟩
  · simp [hread]
  · simp [sends_append, sends]
  · simp [sleeps_append, sleeps]

/-- A two-byte frame starting with the COUNTER opcode is dropped. -/
theorem wrong_length_frame_is_dropped_witness :
    2 ≤ (Config.mk 23 100).CONFIG_BT_L2CAP_TX_MTU ∧
    (ble_opcodes_op_desc.mk 0x02 1 Handler.counter) ∈ ble_opcodes_op_table ∧
    [0x02, 0x00].head? = some (ble_opcodes_op_desc.mk 0x02 1 Handler.counter).opcode ∧
    [0x02, 0x00].length ≠ (ble_opcodes_op_desc.mk 0x02 1 Handler.counter).tx_length ∧
    ∃ w1, ble_opcodes_received (Config.mk 23 100) 0 [0x02, 0x00] World.initial = some w1 ∧
      w1.op_data = World.initial.op_data ∧
      w1.trace = World.initial.trace
        ++ [Effect.log_hexdump_inf [0x02, 0x00],
            Effect.log_err_invalid (ble_opcodes_op_desc.mk 0x02 1 Handler.counter).opcode] ∧
      sends w1.trace = sends World.initial.trace ∧
      sleeps w1.trace = sleeps World.initial.trace :=
  ⟨by decide, by decide, by decide, by decide,
    wrong_length_frame_is_dropped (Config.mk 23 100) 0 [0x02, 0x00] World.initial
      (ble_opcodes_op_desc.mk 0x02 1 Handler.counter) (by decide) (by decide) (by decide)
      (by decide)⟩

/-- C3: a frame whose first byte is the opcode of no descriptor of the table
is dropped whatever its length: the dispatch returns, nothing is sent and the
counter is unchanged. This holds in particular for the one-byte TEMPERATURE
frame and for every 28-byte TEMP_SENSOR_CONFIG frame. -/
theorem unregistered_opcode_is_dropped (cfg : Config) (ret : Int) (op : Nat)
    (rest tail : List Nat) (w : World)
    (hmtu : 1 ≤ cfg.CONFIG_BT_L2CAP_TX_MTU)
    (hreg : ∀ d ∈ ble_opcodes_op_table, d.opcode ≠ op)
    (_htail : (BLE_OPCODES_OP_TEMP_SENSOR_CONFIG :: tail).length
      = BLE_OPCODES_TEMP_SENSOR_CONFIG_TX_LEN) :
    (∃ w1, ble_opcodes_received cfg ret (op :: rest) w = some w1 ∧
      w1.op_data = w.op_data ∧ sends w1.trace = sends w.trace) ∧
    (∃ w1, ble_opcodes_received cfg ret [BLE_OPCODES_OP_TEMPERATURE] w = some w1 ∧
      w1.op_data = w.op_data ∧ sends w1.trace = sends w.trace) ∧
    (∃ w1, ble_opcodes_received cfg ret (BLE_OPCODES_OP_TEMP_SENSOR_CONFIG :: tail) w = some w1 ∧
      w1.op_data = w.op_data ∧ sends w1.trace = sends w.trace) := by
  have key : ∀ (o : Nat) (r : List Nat), (∀ d ∈ ble_opcodes_op_table, d.opcode ≠ o) →
      ∃ w1, ble_opcodes_received cfg ret (o :: r) w = some w1 ∧
        w1.op_data = w.op_data ∧ sends w1.trace = sends w.trace := by
    intro o r ho
    refine ⟨_, received_invalid cfg ret (o :: r) w hmtu (no_match_of_opcode cfg o r ho),
      rfl, ?_⟩
    simp [sends_append, sends]
  refine ⟨key op rest hreg, key _ [] ?_, key _ tail ?_⟩
  · intro d hd
    rcases table_opcode d hd with h | h | h <;> rw [h] <;> decide
  · intro d hd
    rcases table_opcode d hd with h | h | h <;> rw [h] <;> decide

/-- The frame `[0xFF, 0x01]`, the TEMPERATURE frame and a 28-byte
TEMP_SENSOR_CONFIG frame are dropped. -/
theorem unregistered_opcode_is_dropped_witness :
    1 ≤ (Config.mk 23 100).CONFIG_BT_L2CAP_TX_MTU ∧
    (∀ d ∈ ble_opcodes_op_table, d.opcode ≠ 0xFF) ∧
    (BLE_OPCODES_OP_TEMP_SENSOR_CONFIG :: List.replicate 27 7).length
      = BLE_OPCODES_TEMP_SENSOR_CONFIG_TX_LEN ∧
    (∃ w1, ble_opcodes_received (Config.mk 23 100) 0 (0xFF :: [0x01]) World.initial = some w1 ∧
      w1.op_data = World.initial.op_data ∧ sends w1.trace = sends World.initial.trace) ∧
    (∃ w1, ble_opcodes_received (Config.mk 23 100) 0 [BLE_OPCODES_OP_TEMPERATURE] World.initial
        = some w1 ∧
      w1.op_data = World.initial.op_data ∧ sends w1.trace = sends World.initial.trace) ∧
    (∃ w1, ble_opcodes_received (Config.mk 23 100) 0
        (BLE_OPCODES_OP_TEMP_SENSOR_CONFIG :: List.replicate 27 7) World.initial = some w1 ∧
      w1.op_data = World.initial.op_data ∧ sends w1.trace = sends World.initial.trace) :=
  ⟨by decide, by decide, by decide,
    unregistered_opcode_is_dropped (Config.mk 23 100) 0 0xFF [0x01] (List.replicate 27 7)
      World.initial (by decide) (by decide) (by decide)⟩

/-- C4: whatever the counter state and whatever the transport returns, the
frame `[0x01]` makes the dispatcher return after exactly one send, of the
buffer `[0x01]`, without sleeping and without touching the counter; any number
of PING frames in a row therefore produces that same send once per frame and
leaves the counter as it was. -/
theorem ping_echoes_once_and_is_idempotent (cfg : Config) (ret : Int) (rets : List Int)
    (w : World) (hmtu : 2 ≤ cfg.CONFIG_BT_L2CAP_TX_MTU) :
    (∃ w1, ble_opcodes_received cfg ret [0x01] w = some w1 ∧
      w1.op_data = w.op_data ∧
      actions w1.trace = actions w.trace ++ [Effect.bt_nus_send [0x01]] ∧
      sends w1.trace = sends w.trace ++ [[0x01]] ∧
      sleeps w1.trace = sleeps w.trace) ∧
    (∃ wn, receive_all cfg (rets.map (fun r => (r, [0x01]))) w = some wn ∧
      wn.op_data = w.op_data ∧
      actions wn.trace
        = actions w.trace ++ List.replicate rets.length (Effect.bt_nus_send [0x01])) := by
  refine ⟨⟨_, received_ping cfg ret w hmtu, rfl, ?_, ?_, ?_⟩, receive_all_ping cfg hmtu rets w⟩
  · simp [actions_append, actions_handler_error_log, actions]
  · simp [sends_append, sends_handler_error_log, sends]
  · simp [sleeps_append, sleeps_handler_error_log, sleeps]

/-- One PING with a failing send, and three PINGs in a row, after seven
COUNTER increments. -/
theorem ping_echoes_once_and_is_idempotent_witness :
    2 ≤ (Config.mk 23 100).CONFIG_BT_L2CAP_TX_MTU ∧
    ((∃ w1, ble_opcodes_received (Config.mk 23 100) (-5) [0x01]
        (World.mk (ble_opcodes_counter_rx_data.mk 2 7) []) = some w1 ∧
      w1.op_data = (World.mk (ble_opcodes_counter_rx_data.mk 2 7) []).op_data ∧
      actions w1.trace = actions (World.mk (ble_opcodes_counter_rx_data.mk 2 7) []).trace
        ++ [Effect.bt_nus_send [0x01]] ∧
      sends w1.trace = sends (World.mk (ble_opcodes_counter_rx_data.mk 2 7) []).trace
        ++ [[0x01]] ∧
      sleeps w1.trace = sleeps (World.mk (ble_opcodes_counter_rx_data.mk 2 7) []).trace) ∧
    (∃ wn, receive_all (Config.mk 23 100) ([0, -5, 0].map (fun r => (r, [0x01])))
        (World.mk (ble_opcodes_counter_rx_data.mk 2 7) []) = some wn ∧
      wn.op_data = (World.mk (ble_opcodes_counter_rx_data.mk 2 7) []).op_data ∧
      actions wn.trace = actions (World.mk (ble_opcodes_counter_rx_data.mk 2 7) []).trace
        ++ List.replicate [(0 : Int), -5, 0].length (Effect.bt_nus_send [0x01]))) :=
  ⟨by decide,
    ping_echoes_once_and_is_idempotent (Config.mk 23 100) (-5) [0, -5, 0]
      (World.mk (ble_opcodes_counter_rx_data.mk 2 7) []) (by decide)⟩

/-- C5: whatever the state and whatever the transport returns, the frame
`[0x03]` makes the dispatcher return after exactly one sleep of
`CONFIG_BLE_OPCODES_OP_DELAY_TIME_MS` followed by exactly one send of the
buffer `[0x03]`; the sleep comes first, and the counter is unchanged. -/
theorem delay_sleeps_then_echoes (cfg : Config) (ret : Int) (w : World)
    (hmtu : 2 ≤ cfg.CONFIG_BT_L2CAP_TX_MTU) :
    ∃ w1, ble_opcodes_received cfg ret [0x03] w = some w1 ∧
      w1.op_data = w.op_data ∧
      actions w1.trace = actions w.trace
        ++ [Effect.k_msleep cfg.CONFIG_BLE_OPCODES_OP_DELAY_TIME_MS,
            Effect.bt_nus_send [0x03]] := by
  refine ⟨_, received_delay cfg ret w hmtu, rfl, ?_⟩
  simp [actions_append, actions_handler_error_log, actions]

/-- A DELAY frame with a delay of 100 ms from the initial state. -/
theorem delay_sleeps_then_echoes_witness :
    2 ≤ (Config.mk 23 100).CONFIG_BT_L2CAP_TX_MTU ∧
    ∃ w1, ble_opcodes_received (Config.mk 23 100) 0 [0x03] World.initial = some w1 ∧
      w1.op_data = World.initial.op_data ∧
      actions w1.trace = actions World.initial.trace
        ++ [Effect.k_msleep (Config.mk 23 100).CONFIG_BLE_OPCODES_OP_DELAY_TIME_MS,
            Effect.bt_nus_send [0x03]] :=
  ⟨by decide, delay_sleeps_then_echoes (Config.mk 23 100) 0 World.initial (by decide)⟩

/-- C7: for the empty buffer the copy moves zero bytes and stays inside both
arrays, the payload is still all zero, the dispatch returns (every access was
in bounds), the opcode byte read is 0, no descriptor matches, nothing is sent
and the counter is unchanged. -/
theorem empty_buffer_is_dropped (cfg : Config) (ret : Int) (w : World)
    (hmtu : 1 ≤ cfg.CONFIG_BT_L2CAP_TX_MTU) :
    memcpy (List.replicate cfg.CONFIG_BT_L2CAP_TX_MTU 0) []
        (min ((List.replicate cfg.CONFIG_BT_L2CAP_TX_MTU 0).length - 1) ([] : List Nat).length)
      = some (List.replicate cfg.CONFIG_BT_L2CAP_TX_MTU 0) ∧
    (∀ d ∈ ble_opcodes_op_table, ¬ (0 = d.opcode ∧ ([] : List Nat).length = d.tx_length)) ∧
    ble_opcodes_received cfg ret [] w
      = some { op_data := w.op_data,
               trace := w.trace ++ [Effect.log_hexdump_inf [], Effect.log_err_invalid 0] } ∧
    sends (w.trace ++ [Effect.log_hexdump_inf [], Effect.log_err_invalid 0]) = sends w.trace := by
  refine ⟨?_, ?_, ?_, ?_⟩
  · simp [memcpy]
  · intro d hd h
    rw [table_tx_length d hd] at h
    simp at h
  · exact received_invalid cfg ret [] w hmtu (no_match_of_length cfg [] (by simp))
  · simp [sends_append, sends]

/-- The empty buffer delivered in the initial state with a 23-byte payload
array. -/
theorem empty_buffer_is_dropped_witness :
    1 ≤ (Config.mk 23 100).CONFIG_BT_L2CAP_TX_MTU ∧
    (memcpy (List.replicate (Config.mk 23 100).CONFIG_BT_L2CAP_TX_MTU 0) []
        (min ((List.replicate (Config.mk 23 100).CONFIG_BT_L2CAP_TX_MTU 0).length - 1)
          ([] : List Nat).length)
      = some (List.replicate (Config.mk 23 100).CONFIG_BT_L2CAP_TX_MTU 0) ∧
    (∀ d ∈ ble_opcodes_op_table, ¬ (0 = d.opcode ∧ ([] : List Nat).length = d.tx_length)) ∧
    ble_opcodes_received (Config.mk 23 100) 0 [] World.initial
      = some { op_data := World.initial.op_data,
               trace := World.initial.trace
                 ++ [Effect.log_hexdump_inf [], Effect.log_err_invalid 0] } ∧
    sends (World.initial.trace ++ [Effect.log_hexdump_inf [], Effect.log_err_invalid 0])
      = sends World.initial.trace) :=
  ⟨by decide, empty_buffer_is_dropped (Config.mk 23 100) 0 World.initial (by decide)⟩

/-- C1 (the code diverges from the claim): with every send succeeding, N
COUNTER frames from the initial state make the dispatcher send N buffers of 5
bytes that start with `0x02`, but the k-th buffer is `[0x02, 0, 0, 0, k % 256]`:
bytes 1 to 3 are the padding in front of the four-byte aligned `count` and
byte 4 is its lowest byte. The first buffer is `[0x02, 0, 0, 0, 1]`, where the
protocol table asks for `[0x02, 1, 0, 0, 0]`, so the buffers sent are not the
little-endian encodings of 1, 2, ..., N behind the opcode byte. -/
theorem counter_frames_send_padding_and_low_byte (cfg : Config) (N : Nat)
    (hmtu : 2 ≤ cfg.CONFIG_BT_L2CAP_TX_MTU) (hN : 1 ≤ N) :
    ∃ wn, receive_all cfg (List.replicate N ((0 : Int), [0x02])) World.initial = some wn ∧
      (sends wn.trace).length = N ∧
      sends wn.trace = (List.range N).map (fun i => [0x02, 0, 0, 0, (i + 1) % 256]) ∧
      (sends wn.trace)[0]? = some [0x02, 0, 0, 0, 1] ∧
      spec_counter_response 1 = [0x02, 1, 0, 0, 0] ∧
      sends wn.trace ≠ (List.range N).map (fun i => spec_counter_response (i + 1)) := by
  obtain ⟨wn, h1, _, h3⟩ := receive_all_counter cfg hmtu (List.replicate N 0) World.initial
    (by decide)
  rw [List.map_replicate] at h1
  have hs : sends wn.trace = (List.range N).map (fun i => [0x02, 0, 0, 0, (i + 1) % 256]) := by
    rw [h3, List.length_replicate]
    simp only [World.initial, sends, List.nil_append, counter_raw_eq, BLE_OPCODES_OP_COUNTER,
      U32_MOD]
    apply List.map_congr_left
    intro i _
    simp only [Nat.zero_add, List.cons.injEq, and_true, true_and]
    omega
  obtain ⟨m, hm⟩ : ∃ m, N = m + 1 := ⟨N - 1, by omega⟩
  have h0 : (sends wn.trace)[0]? = some [0x02, 0, 0, 0, 1] := by
    rw [hs, hm, List.range_succ_eq_map]
    simp
  refine ⟨wn, h1, ?_, hs, h0, by decide, ?_⟩
  · rw [hs]; simp
  · intro heq
    rw [heq, hm, List.range_succ_eq_map] at h0
    simp only [List.map_cons, List.getElem?_cons_zero, Nat.zero_add, Option.some.injEq] at h0
    exact absurd h0 (by decide)

/-- Three COUNTER frames with a 23-byte payload array. -/
theorem counter_frames_send_padding_and_low_byte_witness :
    2 ≤ (Config.mk 23 100).CONFIG_BT_L2CAP_TX_MTU ∧ 1 ≤ 3 ∧
    ∃ wn, receive_all (Config.mk 23 100) (List.replicate 3 ((0 : Int), [0x02])) World.initial
        = some wn ∧
      (sends wn.trace).length = 3 ∧
      sends wn.trace = (List.range 3).map (fun i => [0x02, 0, 0, 0, (i + 1) % 256]) ∧
      (sends wn.trace)[0]? = some [0x02, 0, 0, 0, 1] ∧
      spec_counter_response 1 = [0x02, 1, 0, 0, 0] ∧
      sends wn.trace ≠ (List.range 3).map (fun i => spec_counter_response (i + 1)) :=
  ⟨by decide, by decide,
    counter_frames_send_padding_and_low_byte (Config.mk 23 100) 3 (by decide) (by decide)⟩

/-- C6 (the code diverges from the claim): none of the three response unions
round-trips through its `raw` array. Without a packing attribute the four-byte
members start at offset 4, so the 5 (or 9) `raw` bytes hold the opcode, three
padding bytes and only the lowest byte of the last member. Different field
values therefore have the same `raw` bytes, the fields read back from them
through a zeroed union differ from the originals, and no decoder at all can
recover the fields from `raw`. -/
theorem response_unions_do_not_round_trip :
    ((ble_opcodes_counter_rx_data.mk 0x02 256).raw = [0x02, 0, 0, 0, 0] ∧
      (ble_opcodes_counter_rx_data.mk 0x02 0).raw = [0x02, 0, 0, 0, 0] ∧
      ble_opcodes_counter_rx_data.of_raw (List.replicate 8 0)
          (ble_opcodes_counter_rx_data.mk 0x02 256).raw
        = ble_opcodes_counter_rx_data.mk 0x02 0 ∧
      ¬ ∃ dec : List Nat → ble_opcodes_counter_rx_data,
          ∀ f : ble_opcodes_counter_rx_data, f.opcode < 256 → f.count < U32_MOD →
            dec f.raw = f) ∧
    ((ble_opcodes_temperature_rx_data.mk 0x04 21 256).raw = [0x04, 0, 0, 0, 21, 0, 0, 0, 0] ∧
      (ble_opcodes_temperature_rx_data.mk 0x04 21 0).raw = [0x04, 0, 0, 0, 21, 0, 0, 0, 0] ∧
      ble_opcodes_temperature_rx_data.of_raw (List.replicate 12 0)
          (ble_opcodes_temperature_rx_data.mk 0x04 21 256).raw
        = ble_opcodes_temperature_rx_data.mk 0x04 21 0 ∧
      ¬ ∃ dec : List Nat → ble_opcodes_temperature_rx_data,
          ∀ f : ble_opcodes_temperature_rx_data, f.opcode < 256 →
            -2147483648 ≤ f.temp_whole_nb → f.temp_whole_nb < 2147483648 →
            -2147483648 ≤ f.temp_decimal_nb → f.temp_decimal_nb < 2147483648 →
            dec f.raw = f) ∧
    ((ble_opcodes_temp_sensor_config_rx_data.mk 0x05 (-5)).raw = [0x05, 0, 0, 0, 251] ∧
      (ble_opcodes_temp_sensor_config_rx_data.mk 0x05 251).raw = [0x05, 0, 0, 0, 251] ∧
      ble_opcodes_temp_sensor_config_rx_data.of_raw (List.replicate 8 0)
          (ble_opcodes_temp_sensor_config_rx_data.mk 0x05 (-5)).raw
        = ble_opcodes_temp_sensor_config_rx_data.mk 0x05 251 ∧
      ¬ ∃ dec : List Nat → ble_opcodes_temp_sensor_config_rx_data,
          ∀ f : ble_opcodes_temp_sensor_config_rx_data, f.opcode < 256 →
            -2147483648 ≤ f.return_code → f.return_code < 2147483648 →
            dec f.raw = f) := by
  have c1 : (ble_opcodes_counter_rx_data.mk 0x02 256).raw = [0x02, 0, 0, 0, 0] := by decide
  have c2 : (ble_opcodes_counter_rx_data.mk 0x02 0).raw = [0x02, 0, 0, 0, 0] := by decide
  have t1 : (ble_opcodes_temperature_rx_data.mk 0x04 21 256).raw
      = [0x04, 0, 0, 0, 21, 0, 0, 0, 0] := by decide
  have t2 : (ble_opcodes_temperature_rx_data.mk 0x04 21 0).raw
      = [0x04, 0, 0, 0, 21, 0, 0, 0, 0] := by decide
  have s1 : (ble_opcodes_temp_sensor_config_rx_data.mk 0x05 (-5)).raw
      = [0x05, 0, 0, 0, 251] := by decide
  have s2 : (ble_opcodes_temp_sensor_config_rx_data.mk 0x05 251).raw
      = [0x05, 0, 0, 0, 251] := by decide
  refine ⟨⟨c1, c2, by decide, ?_⟩, ⟨t1, t2, by decide, ?_⟩, ⟨s1, s2, by decide, ?_⟩⟩
  · rintro ⟨dec, h⟩
    have a := h (ble_opcodes_counter_rx_data.mk 0x02 256) (by decide) (by decide)
    have b := h (ble_opcodes_counter_rx_data.mk 0x02 0) (by decide) (by decide)
    rw [c1] at a
    rw [c2, a] at b
    exact absurd b (by decide)
  · rintro ⟨dec, h⟩
    have a := h (ble_opcodes_temperature_rx_data.mk 0x04 21 256) (by decide) (by decide)
      (by decide) (by decide) (by decide)
    have b := h (ble_opcodes_temperature_rx_data.mk 0x04 21 0) (by decide) (by decide)
      (by decide) (by decide) (by decide)
    rw [t1] at a
    rw [t2, a] at b
    exact absurd b (by decide)
  · rintro ⟨dec, h⟩
    have a := h (ble_opcodes_temp_sensor_config_rx_data.mk 0x05 (-5)) (by decide) (by decide)
      (by decide)
    have b := h (ble_opcodes_temp_sensor_config_rx_data.mk 0x05 251) (by decide) (by decide)
      (by decide)
    rw [s1] at a
    rw [s2, a] at b
    exact absurd b (by decide)

/-- C8: the counter starts at 0; after n COUNTER dispatches in a row, whatever
the transport returned, the stored counter is n mod 2^32 and n sends were made;
after exactly 2^32 of them it is 0 again; the dispatch that wraps, from
2^32 - 1, is an ordinary one: it returns, stores 0, makes its one send and,
the send succeeding, logs no error; and no dispatch of any frame ever does
anything to the counter but leave it or add one modulo 2^32. -/
theorem counter_wraps_modulo_two_pow_32 (cfg : Config) (rets : List Int) (ret : Int)
    (data : List Nat) (w : World) (opcode : Nat) (trace : List Effect)
    (hmtu : 2 ≤ cfg.CONFIG_BT_L2CAP_TX_MTU) :
    World.initial.op_data.count = 0 ∧
    (∃ wn, receive_all cfg (rets.map (fun r => (r, [0x02]))) World.initial = some wn ∧
      wn.op_data.count = rets.length % U32_MOD ∧
      (sends wn.trace).length = rets.length) ∧
    (∃ wz, receive_all cfg (List.replicate U32_MOD (ret, [0x02])) World.initial = some wz ∧
      wz.op_data.count = 0) ∧
    ble_opcodes_received cfg 0 [0x02]
        { op_data := { opcode := opcode, count := U32_MOD - 1 }, trace := trace }
      = some { op_data := { opcode := opcode, count := 0 },
               trace := trace ++ [Effect.log_hexdump_inf [0x02], Effect.log_inf Handler.counter,
                 Effect.bt_nus_send
                   (ble_opcodes_counter_rx_data.raw { opcode := opcode, count := 0 })] } ∧
    (∃ w1, ble_opcodes_received cfg ret data w = some w1 ∧
      (w1.op_data.count = w.op_data.count ∨
        w1.op_data.count = (w.op_data.count + 1) % U32_MOD)) := by
  refine ⟨rfl, ?_, ?_, ?_, ?_⟩
  · obtain ⟨wn, h1, h2, h3⟩ := receive_all_counter cfg hmtu rets World.initial (by decide)
    refine ⟨wn, h1, ?_, ?_⟩
    · rw [h2]
      simp [World.initial]
    · rw [h3]
      simp [World.initial, sends]
  · obtain ⟨wz, h1, h2, _⟩ :=
      receive_all_counter cfg hmtu (List.replicate U32_MOD ret) World.initial (by decide)
    rw [List.map_replicate] at h1
    refine ⟨wz, h1, ?_⟩
    rw [h2, List.length_replicate]
    show (0 + U32_MOD) % U32_MOD = 0
    rw [Nat.zero_add, Nat.mod_self]
  · rw [received_counter cfg 0 _ hmtu]
    simp [handler_error_log, U32_MOD]
  · refine ⟨_, received_closed_form cfg ret data w hmtu, ?_⟩
    unfold dispatch_result
    by_cases h1 : data = [0x01]
    · simp [h1]
    by_cases h2 : data = [0x02]
    · simp [h2]
    by_cases h3 : data = [0x03]
    · simp [h3]
    simp [h1, h2, h3]

/-- Four COUNTER frames, the second with a failing send, and the wrap from
2^32 - 1. -/
theorem counter_wraps_modulo_two_pow_32_witness :
    2 ≤ (Config.mk 23 100).CONFIG_BT_L2CAP_TX_MTU ∧
    (World.initial.op_data.count = 0 ∧
    (∃ wn, receive_all (Config.mk 23 100) ([0, -5, 0, 0].map (fun r => (r, [0x02])))
        World.initial = some wn ∧
      wn.op_data.count = [(0 : Int), -5, 0, 0].length % U32_MOD ∧
      (sends wn.trace).length = [(0 : Int), -5, 0, 0].length) ∧
    (∃ wz, receive_all (Config.mk 23 100) (List.replicate U32_MOD (0, [0x02])) World.initial
        = some wz ∧
      wz.op_data.count = 0) ∧
    ble_opcodes_received (Config.mk 23 100) 0 [0x02]
        { op_data := { opcode := 0x02, count := U32_MOD - 1 }, trace := [] }
      = some { op_data := { opcode := 0x02, count := 0 },
               trace := [] ++ [Effect.log_hexdump_inf [0x02], Effect.log_inf Handler.counter,
                 Effect.bt_nus_send
                   (ble_opcodes_counter_rx_data.raw { opcode := 0x02, count := 0 })] } ∧
    (∃ w1, ble_opcodes_received (Config.mk 23 100) 0 [0x02, 0x09] World.initial = some w1 ∧
      (w1.op_data.count = World.initial.op_data.count ∨
        w1.op_data.count = (World.initial.op_data.count + 1) % U32_MOD))) :=
  ⟨by decide,
    counter_wraps_modulo_two_pow_32 (Config.mk 23 100) [0, -5, 0, 0] 0 [0x02, 0x09]
      World.initial 0x02 [] (by decide)⟩

/-- C10 (the code diverges from the claim): a COUNTER dispatch adds one to the
stored counter before it attempts the send and keeps the increment when the
send fails, so from any stored value c a failing dispatch leaves
(c + 1) mod 2^32 stored. The response does not carry that value, though: only
the lowest byte of the counter reaches the `raw` bytes. After 253 frames from
the initial state, a successful dispatch sends `[0x02, 0, 0, 0, 254]`, the
next one, whose send fails, attempts `[0x02, 0, 0, 0, 255]`, and the one after
it sends `[0x02, 0, 0, 0, 0]` with 256 stored, where the protocol table asks
for `[0x02, 0, 1, 0, 0]`: the value carried by that response is not two
greater than the value carried by the last response sent successfully. -/
theorem failed_send_keeps_increment_but_response_is_not_two_greater (cfg : Config)
    (w : World) (e r : Int)
    (hmtu : 2 ≤ cfg.CONFIG_BT_L2CAP_TX_MTU) (he : e ≠ 0) :
    (∃ w1, ble_opcodes_received cfg e [0x02] w = some w1 ∧
      w1.op_data = { opcode := w.op_data.opcode, count := (w.op_data.count + 1) % U32_MOD } ∧
      w1.trace = w.trace ++ [Effect.log_hexdump_inf [0x02], Effect.log_inf Handler.counter,
        Effect.bt_nus_send w1.op_data.raw, Effect.log_err_handler e 0x02]) ∧
    (∃ w253 w254 w255 w256,
      receive_all cfg (List.replicate 253 ((0 : Int), [0x02])) World.initial = some w253 ∧
      ble_opcodes_received cfg 0 [0x02] w253 = some w254 ∧
      ble_opcodes_received cfg e [0x02] w254 = some w255 ∧
      ble_opcodes_received cfg r [0x02] w255 = some w256 ∧
      w254.op_data.count = 254 ∧ w255.op_data.count = 255 ∧ w256.op_data.count = 256 ∧
      w254.trace = w253.trace ++ [Effect.log_hexdump_inf [0x02],
        Effect.log_inf Handler.counter, Effect.bt_nus_send [0x02, 0, 0, 0, 254]] ∧
      w255.trace = w254.trace ++ [Effect.log_hexdump_inf [0x02],
        Effect.log_inf Handler.counter, Effect.bt_nus_send [0x02, 0, 0, 0, 255],
        Effect.log_err_handler e 0x02] ∧
      sends w256.trace = sends w255.trace ++ [[0x02, 0, 0, 0, 0]] ∧
      spec_counter_response 254 = [0x02, 254, 0, 0, 0] ∧
      spec_counter_response 256 = [0x02, 0, 1, 0, 0] ∧
      (spec_counter_value [0x02, 0, 0, 0, 254] + 2) % U32_MOD
        ≠ spec_counter_value [0x02, 0, 0, 0, 0]) := by
  refine ⟨⟨_, received_counter cfg e w hmtu, rfl, ?_⟩, ?_⟩
  · simp [handler_error_log, he]
  · obtain ⟨w253, h1, h2, _⟩ :=
      receive_all_counter cfg hmtu (List.replicate 253 0) World.initial (by decide)
    rw [List.map_replicate] at h1
    rw [List.length_replicate] at h2
    have hod : w253.op_data = { opcode := 0x02, count := 253 } := by
      rw [h2]; decide
    refine ⟨w253, _, _, _, h1, received_counter cfg 0 w253 hmtu,
      received_counter cfg e _ hmtu, received_counter cfg r _ hmtu, ?_, ?_, ?_, ?_, ?_, ?_,
      by decide, by decide, by decide⟩
    · simp [hod, U32_MOD]
    · simp [hod, U32_MOD]
    · simp [hod, U32_MOD]
    · simp [hod, U32_MOD, handler_error_log, counter_raw_eq]
    · simp [hod, U32_MOD, handler_error_log, he, counter_raw_eq]
    · simp [hod, U32_MOD, sends_append, sends_handler_error_log, sends, counter_raw_eq]

/-- The scenario with a 23-byte payload array, the failing send returning -5
and the last send succeeding. -/
theorem failed_send_keeps_increment_but_response_is_not_two_greater_witness :
    2 ≤ (Config.mk 23 100).CONFIG_BT_L2CAP_TX_MTU ∧ (-5 : Int) ≠ 0 ∧
    ((∃ w1, ble_opcodes_received (Config.mk 23 100) (-5) [0x02]
        (World.mk (ble_opcodes_counter_rx_data.mk 2 254) []) = some w1 ∧
      w1.op_data
        = { opcode := (World.mk (ble_opcodes_counter_rx_data.mk 2 254) []).op_data.opcode,
            count := ((World.mk (ble_opcodes_counter_rx_data.mk 2 254) []).op_data.count + 1)
              % U32_MOD } ∧
      w1.trace = (World.mk (ble_opcodes_counter_rx_data.mk 2 254) []).trace
        ++ [Effect.log_hexdump_inf [0x02], Effect.log_inf Handler.counter,
        Effect.bt_nus_send w1.op_data.raw, Effect.log_err_handler (-5) 0x02]) ∧
    (∃ w253 w254 w255 w256,
      receive_all (Config.mk 23 100) (List.replicate 253 ((0 : Int), [0x02])) World.initial
        = some w253 ∧
      ble_opcodes_received (Config.mk 23 100) 0 [0x02] w253 = some w254 ∧
      ble_opcodes_received (Config.mk 23 100) (-5) [0x02] w254 = some w255 ∧
      ble_opcodes_received (Config.mk 23 100) 0 [0x02] w255 = some w256 ∧
      w254.op_data.count = 254 ∧ w255.op_data.count = 255 ∧ w256.op_data.count = 256 ∧
      w254.trace = w253.trace ++ [Effect.log_hexdump_inf [0x02],
        Effect.log_inf Handler.counter, Effect.bt_nus_send [0x02, 0, 0, 0, 254]] ∧
      w255.trace = w254.trace ++ [Effect.log_hexdump_inf [0x02],
        Effect.log_inf Handler.counter, Effect.bt_nus_send [0x02, 0, 0, 0, 255],
        Effect.log_err_handler (-5) 0x02] ∧
      sends w256.trace = sends w255.trace ++ [[0x02, 0, 0, 0, 0]] ∧
      spec_counter_response 254 = [0x02, 254, 0, 0, 0] ∧
      spec_counter_response 256 = [0x02, 0, 1, 0, 0] ∧
      (spec_counter_value [0x02, 0, 0, 0, 254] + 2) % U32_MOD
        ≠ spec_counter_value [0x02, 0, 0, 0, 0])) :=
  ⟨by decide, by decide,
    failed_send_keeps_increment_but_response_is_not_two_greater (Config.mk 23 100)
      (World.mk (ble_opcodes_counter_rx_data.mk 2 254) []) (-5) 0 (by decide) (by decide)⟩

end BleOpcodes
